import Mathlib

/-!
Verification of the training driver `train_single_gpu.py` of SAM-Adapter-PyTorch.

The file shallowly embeds the orchestration logic of the script:
tensors are lists of rationals (a batch dimension concatenation becomes
`List.flatten`), the external numeric collaborators (`models`, `utils.calc_*`,
`torch.sigmoid ∘ model.infer`) are abstract function parameters, and the
side effects of the driver (scalar summaries, checkpoint file writes, log
lines) are reified as an explicit event list in program order.
-/

/-- A tensor, flattened along the batch dimension. -/
abbrev Tensor : Type := List ℚ

/-- One batch produced by a data loader: the `inp` and `gt` fields
(`batch['inp']`, `batch['gt']` in the script). -/
structure Batch where
  inp : Tensor
  gt : Tensor
deriving DecidableEq, Repr

/-- A serialized state dict (`model.state_dict()` / `optimizer.state_dict()`),
abstracted as named rational entries. -/
abbrev StateDict : Type := List (String × ℚ)

/-- A config spec fragment (`config['model']`, `config['optimizer']`): a
constructor name, its arguments, and the `sd` entry that `save_model`
injects (absent, i.e. `none`, until a save happens). -/
structure Spec where
  name : String
  args : List (String × String)
  sd : Option StateDict
deriving DecidableEq, Repr

/-- One `sub`/`div` normalization entry of the `data_norm` structure. -/
structure NormSpec where
  sub : List ℚ
  div : List ℚ
deriving DecidableEq, Repr

/-- The `data_norm` sub-structure of the configuration. -/
structure DataNorm where
  inp : NormSpec
  gt : NormSpec
deriving DecidableEq, Repr

/-- The default `data_norm` injected by `main` (lines 125-129):
`{'inp': {'sub': [0], 'div': [1]}, 'gt': {'sub': [0], 'div': [1]}}`. -/
def defaultDataNorm : DataNorm :=
  { inp := { sub := [0], div := [1] }, gt := { sub := [0], div := [1] } }

/-- The configuration mapping, restricted to the keys the driver mutates or
persists: the model spec, the optimizer spec, and the optional `data_norm`
sub-structure. -/
structure Config where
  model : Spec
  optimizer : Spec
  dataNorm : Option DataNorm
deriving DecidableEq, Repr

/-- Python exceptions the driver can raise, as far as the claims reach. -/
inductive PyErr where
  /-- `UnboundLocalError`: a local (`metric_fn`) referenced before assignment. -/
  | unboundLocalError
  /-- `statistics.StatisticsError`: `mean` applied to an empty list. -/
  | statisticsError
deriving DecidableEq, Repr

/-- The four metric functions of `utils` that `eval_psnr` dispatches to. -/
inductive MetricFn where
  | calc_f1
  | calc_fmeasure
  | calc_ber
  | calc_cod
deriving DecidableEq, Repr

/-- The metric dispatch of `eval_psnr` (lines 35-46): the `if/elif` chain on
`eval_type` binds `metric_fn` and the four metric names; no `else` branch
exists, so any other value leaves them unbound (`none` here). -/
def evalDispatch (eval_type : Option String) :
    Option (MetricFn × (String × String × String × String)) :=
  if eval_type = some "f1" then
    some (.calc_f1, ("f1", "auc", "none", "none"))
  else if eval_type = some "fmeasure" then
    some (.calc_fmeasure, ("f_mea", "mae", "none", "none"))
  else if eval_type = some "ber" then
    some (.calc_ber, ("shadow", "non_shadow", "ber", "none"))
  else if eval_type = some "cod" then
    some (.calc_cod, ("sm", "em", "wfm", "mae"))
  else
    none

/-- `eval_psnr` (lines 32-68). `fns` abstracts the external metric
implementations `utils.calc_*`; `inferSig` abstracts
`torch.sigmoid ∘ model.infer`. The loop accumulates per-batch predictions
and ground truths, `torch.cat(·, 0)` becomes `List.flatten`, and the chosen
metric function is applied to the two concatenations. When the dispatch
bound nothing, the call `metric_fn(pred_list, gt_list)` at line 66 raises
`UnboundLocalError`. The source defaults `eval_type` to `None`. -/
def eval_psnr (fns : MetricFn → Tensor → Tensor → ℚ × ℚ × ℚ × ℚ)
    (inferSig : Tensor → Tensor) (batches : List Batch)
    (eval_type : Option String) :
    Except PyErr ((ℚ × ℚ × ℚ × ℚ) × (String × String × String × String)) :=
  let pred_list : Tensor := (batches.map fun b => inferSig b.inp).flatten
  let gt_list : Tensor := (batches.map fun b => b.gt).flatten
  match evalDispatch eval_type with
  | some (fn, names) => .ok (fns fn pred_list gt_list, names)
  | none => .error .unboundLocalError

/-- What `prepare_training` (lines 70-84) produced: the model and optimizer
(both built by the same external factory calls in either branch), the
starting epoch, and the list of checkpoint files it read back
(`torch.load` never occurs in `prepare_training`, so this list is `[]` in
both branches). -/
structure PrepResult (μ ω : Type) where
  model : μ
  optimizer : ω
  epoch_start : Nat
  checkpointReads : List String
deriving DecidableEq, Repr

/-- `prepare_training` (lines 70-84): with `resume` set, the model and the
optimizer are constructed fresh exactly as in the other branch and only
`epoch_start` differs (`resume + 1` instead of `1`); neither branch loads a
checkpoint. -/
def prepare_training {μ ω : Type} (mkModel : μ) (mkOptimizer : ω)
    (resume : Option Nat) : PrepResult μ ω :=
  match resume with
  | some r =>
      { model := mkModel, optimizer := mkOptimizer,
        epoch_start := r + 1, checkpointReads := [] }
  | none =>
      { model := mkModel, optimizer := mkOptimizer,
        epoch_start := 1, checkpointReads := [] }

/-- The model as the training loop sees it: a hidden state `σ`, the combined
`set_input`/`optimize_parameters` step, and the `loss_G` reading taken
after each step. -/
structure TrainModel (σ : Type) where
  optimize_parameters : σ → Batch → σ
  loss_G : σ → ℚ

/-- The batch loop of `train` (lines 91-99): steps the model once per batch
in order and records `model.loss_G.item()` after each step. Returns the
final model state and the recorded loss list. -/
def trainSteps {σ : Type} (M : TrainModel σ) : σ → List Batch → σ × List ℚ
  | s, [] => (s, [])
  | s, b :: bs =>
      let s' := M.optimize_parameters s b
      let rest := trainSteps M s' bs
      (rest.1, M.loss_G s' :: rest.2)

/-- `train` (lines 86-102): runs the batch loop and returns
`statistics.mean(loss_list)`, which raises `StatisticsError` when the
loader yielded no batch. -/
def train {σ : Type} (M : TrainModel σ) (s : σ) (batches : List Batch) :
    Except PyErr (σ × ℚ) :=
  let r := trainSteps M s batches
  match r.2 with
  | [] => .error .statisticsError
  | _ :: _ => .ok (r.1, r.2.sum / (r.2.length : ℚ))

/-- The validation results of one epoch, as `eval_psnr` returned them at
line 172: four result values and four metric names. -/
structure ValOutput where
  r1 : ℚ
  r2 : ℚ
  r3 : ℚ
  r4 : ℚ
  m1 : String
  m2 : String
  m3 : String
  m4 : String
deriving DecidableEq, Repr

/-- The model state the checkpoint code reads: `model.state_dict()` and
`model.optimizer.state_dict()`. -/
structure ModelState where
  sd : StateDict
  optSd : StateDict
deriving DecidableEq, Repr

/-- An observable side effect of the epoch body, in program order:
a `writer.add_scalar(s)` call, a checkpoint file write with the dict it
serializes, or a `log(...)` call with the joined `log_info` entries. -/
inductive Event where
  | scalar (tag : String) (epoch : Nat)
  | ckptWrite (file : String) (model_spec optimizer_spec : Spec)
  | logLine (entries : List String)
deriving DecidableEq, Repr

/-- `save_model` (lines 104-115): takes `config['model']` and
`config['optimizer']` by reference, sets their `'sd'` entries to the
serialized states — thereby mutating the configuration object — and writes
the pair to `model_{name}.pth`. Returns the mutated config and the write
event. -/
def save_model (config : Config) (model : ModelState) (name : String) :
    Config × Event :=
  let model_spec : Spec := { config.model with sd := some model.sd }
  let optimizer_spec : Spec := { config.optimizer with sd := some model.optSd }
  ({ config with model := model_spec, optimizer := optimizer_spec },
   .ckptWrite ("model_" ++ name ++ ".pth") model_spec optimizer_spec)

/-- The validation condition of line 171:
`(epoch_val is not None) and (epoch % epoch_val == 0)`. -/
def validatesAt (epoch_val : Option Nat) (epoch : Nat) : Bool :=
  match epoch_val with
  | none => false
  | some v => epoch % v == 0

/-- The best-metric tracker initialization of line 156:
`max_val_v = -1e18 if config['eval_type'] != 'ber' else 1e8`
(both float literals are exact powers of ten). -/
def initBest (eval_type : String) : ℚ :=
  if eval_type ≠ "ber" then -(10 ^ 18) else 10 ^ 8

/-- The body of one iteration of the epoch loop (lines 160-200), after the
call to `train` (whose returned loss is `train_loss`) and with the values
`eval_psnr` would return given as `val`. Produces the mutated config, the
new best tracker, and the event list in program order: the `lr` and `loss`
scalars, the unconditional `last` checkpoint write, then — only when the
epoch validates — the four metric scalars, the conditional `best`
checkpoint write on strict improvement (`result1 >` for eval types other
than `'ber'`, `result3 <` for `'ber'`), and the log line. Timer strings
and the `%.4f` float formatting of `log_info` are abstracted. -/
def epochBody (eval_type : String) (epoch_val : Option Nat)
    (epoch epoch_max : Nat) (config : Config) (max_val_v : ℚ)
    (model : ModelState) (train_loss : ℚ) (val : ValOutput) :
    Config × ℚ × List Event :=
  let log_info : List String :=
    ["epoch " ++ toString epoch ++ "/" ++ toString epoch_max,
     "train G: loss=" ++ toString train_loss]
  let headEvents : List Event := [.scalar "lr" epoch, .scalar "loss" epoch]
  let c1 := (save_model config model "last").1
  let lastEv := (save_model config model "last").2
  if validatesAt epoch_val epoch then
    let log2 := log_info ++
      ["val: " ++ val.m1, "val: " ++ val.m2, "val: " ++ val.m3, "val: " ++ val.m4]
    let valScalars : List Event :=
      [.scalar val.m1 epoch, .scalar val.m2 epoch,
       .scalar val.m3 epoch, .scalar val.m4 epoch]
    let logAll := log2 ++ ["time"]
    if eval_type ≠ "ber" then
      if val.r1 > max_val_v then
        ((save_model c1 model "best").1, val.r1,
         headEvents ++ [lastEv] ++ valScalars ++
           [(save_model c1 model "best").2, .logLine logAll])
      else
        (c1, max_val_v, headEvents ++ [lastEv] ++ valScalars ++ [.logLine logAll])
    else
      if val.r3 < max_val_v then
        ((save_model c1 model "best").1, val.r3,
         headEvents ++ [lastEv] ++ valScalars ++
           [(save_model c1 model "best").2, .logLine logAll])
      else
        (c1, max_val_v, headEvents ++ [lastEv] ++ valScalars ++ [.logLine logAll])
  else
    (c1, max_val_v, headEvents ++ [lastEv])

/-- The epoch index sequence of line 159: `range(epoch_start, epoch_max + 1)`. -/
def epochRange (epoch_start epoch_max : Nat) : List Nat :=
  List.range' epoch_start (epoch_max + 1 - epoch_start)

/-- Folds `epochBody` over a list of epoch indices, threading the config and
the best tracker and recording each epoch's events. The per-epoch train
loss, validation output and model state are supplied by the abstract
functions `lossOf`, `valOf`, `modelOf` (they depend on external numerics). -/
def runEpochs (eval_type : String) (epoch_val : Option Nat) (epoch_max : Nat)
    (modelOf : Nat → ModelState) (lossOf : Nat → ℚ) (valOf : Nat → ValOutput) :
    Config → ℚ → List Nat → Config × ℚ × List (Nat × List Event)
  | c, b, [] => (c, b, [])
  | c, b, e :: es =>
      let r := epochBody eval_type epoch_val e epoch_max c b
        (modelOf e) (lossOf e) (valOf e)
      let rest := runEpochs eval_type epoch_val epoch_max modelOf lossOf valOf
        r.1 r.2.1 es
      (rest.1, rest.2.1, (e, r.2.2) :: rest.2.2)

/-- The epoch loop of `main` (lines 154-200): initializes the best tracker
per line 156 and runs the body for every epoch of
`range(epoch_start, epoch_max + 1)`, then returns (the loop is the last
statement of `main`; there is no other normal exit path). -/
def mainLoop (eval_type : String) (epoch_val : Option Nat)
    (modelOf : Nat → ModelState) (lossOf : Nat → ℚ) (valOf : Nat → ValOutput)
    (epoch_start epoch_max : Nat) (config : Config) :
    Config × ℚ × List (Nat × List Event) :=
  runEpochs eval_type epoch_val epoch_max modelOf lossOf valOf
    config (initBest eval_type) (epochRange epoch_start epoch_max)

/-- Lines 120-129 of `main`, in order: the configuration is dumped verbatim
to `config.yaml` (lines 121-122) and only afterwards is the default
`data_norm` injected when absent (lines 125-129). Returns the dumped
snapshot and the possibly-injected config. -/
def mainSetup (config : Config) : Config × Config :=
  let dumped := config
  let config1 :=
    if config.dataNorm = none then
      { config with dataNorm := some defaultDataNorm }
    else config
  (dumped, config1)

/-- Whether an event list contains a `log(...)` line. -/
def hasLogLine : List Event → Bool
  | [] => false
  | .logLine _ :: _ => true
  | _ :: es => hasLogLine es

/-! ### Concrete fixtures used by witnesses and counterexamples -/

/-- A concrete loaded configuration with no `data_norm` and no `sd` entries. -/
def cfg0 : Config :=
  { model := { name := "sam", args := [("inp_size", "1024")], sd := none },
    optimizer := { name := "adam", args := [("lr", "0.0002")], sd := none },
    dataNorm := none }

/-- A concrete model state. -/
def m0 : ModelState := { sd := [("w", 1)], optSd := [("step", 0)] }

/-- A concrete validation output. -/
def v0 : ValOutput :=
  { r1 := 1, r2 := 0, r3 := 0, r4 := 0,
    m1 := "f1", m2 := "auc", m3 := "none", m4 := "none" }

/-- A concrete stand-in for the external metric implementations. -/
def fns0 : MetricFn → Tensor → Tensor → ℚ × ℚ × ℚ × ℚ := fun _ _ _ => (0, 0, 0, 0)

/-- A concrete model: state is a rational, each step adds the batch input sum,
and the recorded loss is the state itself. -/
def M0 : TrainModel ℚ := { optimize_parameters := fun s b => s + b.inp.sum, loss_G := fun s => s }

/-- A two-batch training loader. -/
def bs0 : List Batch := [{ inp := [1], gt := [0] }, { inp := [2], gt := [0] }]

/-! ### C4 -/

/-- Claim C4 (confirmed): `eval_psnr` selects one of exactly four metric
bundles by `eval_type` name — `'f1' ↦ (calc_f1, ('f1','auc','none','none'))`,
`'fmeasure' ↦ (calc_fmeasure, ('f_mea','mae','none','none'))`,
`'ber' ↦ (calc_ber, ('shadow','non_shadow','ber','none'))`,
`'cod' ↦ (calc_cod, ('sm','em','wfm','mae'))` — and applies the chosen
metric function to the concatenation of all accumulated predictions and of
all ground truths. -/
theorem eval_dispatch_four_bundles
    (fns : MetricFn → Tensor → Tensor → ℚ × ℚ × ℚ × ℚ)
    (inferSig : Tensor → Tensor) (batches : List Batch) :
    eval_psnr fns inferSig batches (some "f1") =
      .ok (fns .calc_f1 ((batches.map fun b => inferSig b.inp).flatten)
             ((batches.map fun b => b.gt).flatten),
           ("f1", "auc", "none", "none")) ∧
    eval_psnr fns inferSig batches (some "fmeasure") =
      .ok (fns .calc_fmeasure ((batches.map fun b => inferSig b.inp).flatten)
             ((batches.map fun b => b.gt).flatten),
           ("f_mea", "mae", "none", "none")) ∧
    eval_psnr fns inferSig batches (some "ber") =
      .ok (fns .calc_ber ((batches.map fun b => inferSig b.inp).flatten)
             ((batches.map fun b => b.gt).flatten),
           ("shadow", "non_shadow", "ber", "none")) ∧
    eval_psnr fns inferSig batches (some "cod") =
      .ok (fns .calc_cod ((batches.map fun b => inferSig b.inp).flatten)
             ((batches.map fun b => b.gt).flatten),
           ("sm", "em", "wfm", "mae")) := by
  refine ⟨rfl, rfl, rfl, rfl⟩

/-! ### C5 -/

/-- Claim C5 (confirmed): for every `eval_type` outside the closed set
`{'f1','fmeasure','ber','cod'}` — including the `None` default — `eval_psnr`
fails with an unbound-variable error when it reaches the metric computation
at line 66, rather than returning a result or raising a designed error. -/
theorem eval_psnr_unknown_type_unbound
    (fns : MetricFn → Tensor → Tensor → ℚ × ℚ × ℚ × ℚ)
    (inferSig : Tensor → Tensor) (batches : List Batch)
    (eval_type : Option String)
    (h1 : eval_type ≠ some "f1") (h2 : eval_type ≠ some "fmeasure")
    (h3 : eval_type ≠ some "ber") (h4 : eval_type ≠ some "cod") :
    eval_psnr fns inferSig batches eval_type = .error .unboundLocalError := by
  simp [eval_psnr, evalDispatch, h1, h2, h3, h4]

/-- Witness for C5 at the `None` default and at the unrecognized type
`'psnr'`. -/
theorem eval_psnr_unknown_type_unbound_witness :
    eval_psnr fns0 (fun t => t) [] none = .error .unboundLocalError ∧
    eval_psnr fns0 (fun t => t) [] (some "psnr") = .error .unboundLocalError :=
  ⟨eval_psnr_unknown_type_unbound fns0 (fun t => t) [] none
      (by decide) (by decide) (by decide) (by decide),
   eval_psnr_unknown_type_unbound fns0 (fun t => t) [] (some "psnr")
      (by decide) (by decide) (by decide) (by decide)⟩

/-! ### C3 -/

/-- Counterexample for claim C3: with `resume` set (here `resume = 5`),
`prepare_training` reads back no checkpoint — its read set is empty and the
model and optimizer it returns are the freshly constructed ones — so the
claim that the `resume` path restores model and optimizer state from a
previously written checkpoint is false; only the starting epoch changes. -/
theorem resume_reads_no_checkpoint :
    (prepare_training "fresh-model" "fresh-optimizer" (some 5)).checkpointReads = [] ∧
    (prepare_training "fresh-model" "fresh-optimizer" (some 5)).model = "fresh-model" ∧
    (prepare_training "fresh-model" "fresh-optimizer" (some 5)).optimizer = "fresh-optimizer" ∧
    (prepare_training "fresh-model" "fresh-optimizer" (some 5)).epoch_start = 6 :=
  ⟨rfl, rfl, rfl, rfl⟩

/-- Claim C3 (corrected): checkpoint records are never read back within a
run, not even at resume: `prepare_training` constructs the model and the
optimizer fresh in both branches, reads no checkpoint file in either, and
`resume` only offsets the starting epoch to `resume + 1`. -/
theorem prepare_training_fresh_no_read {μ ω : Type} (mkModel : μ)
    (mkOptimizer : ω) (resume : Option Nat) :
    (prepare_training mkModel mkOptimizer resume).checkpointReads = [] ∧
    (prepare_training mkModel mkOptimizer resume).model = mkModel ∧
    (prepare_training mkModel mkOptimizer resume).optimizer = mkOptimizer ∧
    (prepare_training mkModel mkOptimizer resume).epoch_start =
      (match resume with | some r => r + 1 | none => 1) := by
  cases resume <;> exact ⟨rfl, rfl, rfl, rfl⟩

/-! ### C9 -/

/-- Claim C9 (confirmed): for every non-empty sequence of training batches,
one training epoch performs the model's optimization step once per batch in
order (the final state is the left fold of the step over the batches, and
the recorded losses are the `loss_G` readings of the successive
intermediate states) and returns the arithmetic mean — sum over length —
of the per-batch losses. -/
theorem train_epoch_mean {σ : Type} (M : TrainModel σ) (s : σ)
    (batches : List Batch) (h : batches ≠ []) :
    train M s batches =
      .ok ((trainSteps M s batches).1,
        ((trainSteps M s batches).2).sum /
          (((trainSteps M s batches).2).length : ℚ)) ∧
    (trainSteps M s batches).1 = batches.foldl M.optimize_parameters s ∧
    (trainSteps M s batches).2 =
      ((batches.scanl M.optimize_parameters s).tail).map M.loss_G := by
  refine ⟨?_, ?_, ?_⟩
  · match batches, h with
    | b :: bs, _ => simp [train, trainSteps]
  · clear h
    induction batches generalizing s with
    | nil => rfl
    | cons b bs ih => simp [trainSteps, List.foldl_cons, ih]
  · clear h
    induction batches generalizing s with
    | nil => rfl
    | cons b bs ih =>
        simp only [trainSteps, List.scanl_cons, List.tail_cons, List.map_cons, ih]
        cases bs <;> simp [List.scanl]

/-- Witness for C9 on the two-batch fixture. -/
theorem train_epoch_mean_witness :
    train M0 0 bs0 =
      .ok ((trainSteps M0 0 bs0).1,
        ((trainSteps M0 0 bs0).2).sum /
          (((trainSteps M0 0 bs0).2).length : ℚ)) ∧
    (trainSteps M0 0 bs0).1 = bs0.foldl M0.optimize_parameters 0 ∧
    (trainSteps M0 0 bs0).2 =
      ((bs0.scanl M0.optimize_parameters 0).tail).map M0.loss_G :=
  train_epoch_mean M0 0 bs0 (by decide)

/-! ### C10 -/

/-- Claim C10 (confirmed): for an empty training loader, `train` raises
(`statistics.mean` of an empty list) instead of returning an epoch loss, so
every run requires a non-empty training dataset. -/
theorem train_empty_loader_error {σ : Type} (M : TrainModel σ) (s : σ) :
    train M s [] = .error .statisticsError := rfl

/-! ### C1 -/

/-- Counterexample for claim C1: for the maximized metric family `'f1'`
(an `eval_type` other than `'ber'`), the best-metric tracker is initialized
to `-1e18` — a strictly negative `-∞` sentinel — not to `+∞` as the claim
states. -/
theorem init_tracker_negative_for_max_metric :
    initBest "f1" = -((10 : ℚ) ^ 18) ∧ initBest "f1" < 0 := by
  refine ⟨rfl, by decide⟩

/-- Claim C1 (corrected): the best-metric tracker is a single scalar carried
across epochs, initialized at line 156 to the `-∞` sentinel `-1e18` for
every maximized metric (`eval_type ≠ 'ber'`) and to the `+∞` sentinel `1e8`
for the minimized `'ber'` metric; on a validation epoch it is updated if
and only if the new value is a strict improvement (strictly greater than
the tracker for maximized metrics, strictly less for `'ber'`), and on a
non-validation epoch it is unchanged. -/
theorem best_tracker_init_and_update (eval_type : String)
    (epoch_val : Option Nat) (epoch epoch_max : Nat) (config : Config)
    (best : ℚ) (model : ModelState) (train_loss : ℚ) (val : ValOutput) :
    initBest eval_type =
      (if eval_type = "ber" then (10 : ℚ) ^ 8 else -((10 : ℚ) ^ 18)) ∧
    (epochBody eval_type epoch_val epoch epoch_max config best model
        train_loss val).2.1 =
      (if validatesAt epoch_val epoch then
        (if eval_type ≠ "ber" then (if val.r1 > best then val.r1 else best)
         else (if val.r3 < best then val.r3 else best))
       else best) := by
  constructor
  · by_cases hb : eval_type = "ber" <;> simp [initBest, hb]
  · by_cases hv : validatesAt epoch_val epoch = true
    · by_cases hb : eval_type = "ber"
      · by_cases h3 : val.r3 < best <;> simp [epochBody, hv, hb, h3]
      · by_cases h1 : val.r1 > best <;> simp [epochBody, hv, hb, h1]
    · simp [epochBody, hv]

/-! ### C6 -/

/-- Counterexample for claim C6: a checkpoint save does modify the
configuration object — `save_model` writes the serialized states into the
`'sd'` entries of `config['model']` and `config['optimizer']` through the
shared references — so the configuration is not mutated only once (the
`data_norm` injection). -/
theorem config_save_mutates : (save_model cfg0 m0 "last").1 ≠ cfg0 := by decide

/-- Claim C6 (corrected): the copy persisted to the run directory as
`config.yaml` is verbatim the configuration that was loaded (the dump at
lines 121-122 precedes every mutation), and the `data_norm` injection
behaves as claimed; but the configuration is additionally mutated by every
checkpoint save, which sets the `'sd'` entries of the model and optimizer
specs to the serialized states and changes nothing else. -/
theorem config_mutation_profile (c : Config) (m : ModelState) (nm : String) :
    (mainSetup c).1 = c ∧
    (mainSetup c).2 =
      (if c.dataNorm = none then { c with dataNorm := some defaultDataNorm }
       else c) ∧
    (save_model c m nm).1 =
      { c with model := { c.model with sd := some m.sd },
               optimizer := { c.optimizer with sd := some m.optSd } } :=
  ⟨rfl, rfl, rfl⟩

/-! ### C7 -/

/-- Counterexample for claim C7: on a training epoch where validation does
not run (epoch 1 with `epoch_val = 2`), the scalar summaries are written
but no human-readable line is appended to the text log — the `log(...)`
call at line 199 sits inside the validation branch — so the per-epoch log
line is not emitted on every epoch. -/
theorem no_log_line_on_nonval_epoch :
    hasLogLine (epochBody "f1" (some 2) 1 10 cfg0 0 m0 1 v0).2.2 = false ∧
    Event.scalar "lr" 1 ∈ (epochBody "f1" (some 2) 1 10 cfg0 0 m0 1 v0).2.2 := by
  decide

/-- Claim C7 (corrected): on every epoch of the training loop the learning
rate and training loss scalar summaries are written, and on validation
epochs the four named validation metrics follow; but the human-readable
progress line is appended to the text log exactly on the epochs where
validation runs, not on every epoch. -/
theorem epoch_logging_profile (eval_type : String) (epoch_val : Option Nat)
    (epoch epoch_max : Nat) (config : Config) (best : ℚ)
    (model : ModelState) (train_loss : ℚ) (val : ValOutput) :
    Event.scalar "lr" epoch ∈
      (epochBody eval_type epoch_val epoch epoch_max config best model
        train_loss val).2.2 ∧
    Event.scalar "loss" epoch ∈
      (epochBody eval_type epoch_val epoch epoch_max config best model
        train_loss val).2.2 ∧
    (validatesAt epoch_val epoch = true →
      Event.scalar val.m1 epoch ∈
        (epochBody eval_type epoch_val epoch epoch_max config best model
          train_loss val).2.2 ∧
      Event.scalar val.m2 epoch ∈
        (epochBody eval_type epoch_val epoch epoch_max config best model
          train_loss val).2.2 ∧
      Event.scalar val.m3 epoch ∈
        (epochBody eval_type epoch_val epoch epoch_max config best model
          train_loss val).2.2 ∧
      Event.scalar val.m4 epoch ∈
        (epochBody eval_type epoch_val epoch epoch_max config best model
          train_loss val).2.2) ∧
    (hasLogLine (epochBody eval_type epoch_val epoch epoch_max config best
        model train_loss val).2.2 = true ↔
      validatesAt epoch_val epoch = true) := by
  by_cases hv : validatesAt epoch_val epoch = true
  · by_cases hb : eval_type = "ber"
    · by_cases h3 : val.r3 < best <;>
        simp [epochBody, hv, hb, h3, hasLogLine, save_model]
    · by_cases h1 : val.r1 > best <;>
        simp [epochBody, hv, hb, h1, hasLogLine, save_model]
  · simp [epochBody, hv, hasLogLine, save_model]

/-! ### C8 -/

/-- The trace of `runEpochs` records exactly the supplied epoch indices, in
order. -/
theorem runEpochs_trace_epochs (eval_type : String) (epoch_val : Option Nat)
    (epoch_max : Nat) (modelOf : Nat → ModelState) (lossOf : Nat → ℚ)
    (valOf : Nat → ValOutput) :
    ∀ (l : List Nat) (c : Config) (b : ℚ),
      ((runEpochs eval_type epoch_val epoch_max modelOf lossOf valOf
        c b l).2.2.map Prod.fst) = l := by
  intro l
  induction l with
  | nil => intro c b; rfl
  | cons e es ih => intro c b; simp [runEpochs, ih]

/-- Claim C8 (confirmed): the training driver terminates normally after the
configured maximum epoch — for every `epoch_start ≤ epoch_max` the epoch
loop executes exactly `epoch_max - epoch_start + 1` iterations, covering
epochs `epoch_start` through `epoch_max` inclusive and no others, and then
returns. -/
theorem epoch_loop_count (eval_type : String) (epoch_val : Option Nat)
    (modelOf : Nat → ModelState) (lossOf : Nat → ℚ) (valOf : Nat → ValOutput)
    (epoch_start epoch_max : Nat) (config : Config)
    (h : epoch_start ≤ epoch_max) :
    (mainLoop eval_type epoch_val modelOf lossOf valOf epoch_start epoch_max
        config).2.2.map Prod.fst =
      List.range' epoch_start (epoch_max - epoch_start + 1) ∧
    (mainLoop eval_type epoch_val modelOf lossOf valOf epoch_start epoch_max
        config).2.2.length = epoch_max - epoch_start + 1 := by
  have h1 : epoch_max + 1 - epoch_start = epoch_max - epoch_start + 1 := by
    omega
  have h2 : (mainLoop eval_type epoch_val modelOf lossOf valOf epoch_start
      epoch_max config).2.2.map Prod.fst = epochRange epoch_start epoch_max :=
    runEpochs_trace_epochs eval_type epoch_val epoch_max modelOf lossOf valOf
      (epochRange epoch_start epoch_max) config (initBest eval_type)
  constructor
  · rw [h2, epochRange, h1]
  · have h3 := congrArg List.length h2
    rw [List.length_map] at h3
    rw [h3, epochRange, List.length_range', h1]

/-- Witness for C8 on a run from epoch 1 to epoch 3. -/
theorem epoch_loop_count_witness :
    (mainLoop "f1" none (fun _ => m0) (fun _ => 1) (fun _ => v0) 1 3
        cfg0).2.2.map Prod.fst = List.range' 1 (3 - 1 + 1) ∧
    (mainLoop "f1" none (fun _ => m0) (fun _ => 1) (fun _ => v0) 1 3
        cfg0).2.2.length = 3 - 1 + 1 :=
  epoch_loop_count "f1" none (fun _ => m0) (fun _ => 1) (fun _ => v0) 1 3 cfg0
    (by decide)

/-! ### C2 -/

/-- The `last` checkpoint file name assembled by `save_model`. -/
theorem ckptFile_last_eq : "model_" ++ "last" ++ ".pth" = "model_last.pth" := rfl

/-- The `best` checkpoint file name assembled by `save_model`. -/
theorem ckptFile_best_eq : "model_" ++ "best" ++ ".pth" = "model_best.pth" := rfl

/-- Claim C2 (confirmed): on every epoch of the training loop a checkpoint
file named `model_last.pth` is written, and a checkpoint file named
`model_best.pth` is written exactly when the epoch validates and the active
metric strictly improves on the best value so far (`result1` for eval
types other than `'ber'`, `result3` for `'ber'`); every written checkpoint
pairs the model spec carrying the model's serialized parameters with the
optimizer spec carrying the optimizer's serialized state. -/
theorem checkpoint_writes_per_epoch (eval_type : String)
    (epoch_val : Option Nat) (epoch epoch_max : Nat) (config : Config)
    (best : ℚ) (model : ModelState) (train_loss : ℚ) (val : ValOutput) :
    (∃ ms os, Event.ckptWrite "model_last.pth" ms os ∈
      (epochBody eval_type epoch_val epoch epoch_max config best model
        train_loss val).2.2) ∧
    ((∃ ms os, Event.ckptWrite "model_best.pth" ms os ∈
      (epochBody eval_type epoch_val epoch epoch_max config best model
        train_loss val).2.2) ↔
      (validatesAt epoch_val epoch = true ∧
        (if eval_type ≠ "ber" then val.r1 > best else val.r3 < best))) ∧
    (∀ f ms os, Event.ckptWrite f ms os ∈
      (epochBody eval_type epoch_val epoch epoch_max config best model
        train_loss val).2.2 →
      ms = { config.model with sd := some model.sd } ∧
      os = { config.optimizer with sd := some model.optSd }) := by
  by_cases hv : validatesAt epoch_val epoch = true
  · by_cases hb : eval_type = "ber"
    · by_cases h3 : val.r3 < best
      · refine ⟨?_, ?_, ?_⟩ <;>
          simp [epochBody, save_model, hv, hb, h3, ckptFile_last_eq,
            ckptFile_best_eq] <;> tauto
      · refine ⟨?_, ?_, ?_⟩ <;>
          simp [epochBody, save_model, hv, hb, h3, ckptFile_last_eq,
            ckptFile_best_eq]
    · by_cases h1 : val.r1 > best
      · refine ⟨?_, ?_, ?_⟩ <;>
          simp [epochBody, save_model, hv, hb, h1, ckptFile_last_eq,
            ckptFile_best_eq] <;> tauto
      · refine ⟨?_, ?_, ?_⟩ <;>
          simp [epochBody, save_model, hv, hb, h1, ckptFile_last_eq,
            ckptFile_best_eq]
  · refine ⟨?_, ?_, ?_⟩ <;>
      simp [epochBody, save_model, hv, ckptFile_last_eq, ckptFile_best_eq]
